import Mathlib

/-!
Verification of the lightcurvedb rollup-tier selection, statistics and
binning engine.  The Python source is shallowly embedded: pure Python
functions become Lean functions, SQL expressions are evaluated under an
explicit SQL-value semantics (`Option ℚ` for nullable values, an `Except`
monad for raised database errors such as division by zero), pandas
DataFrame pipelines become list pipelines, and timestamps are rationals
(seconds) or integers (seconds) as noted at each definition.  Floating
point is modelled by exact rationals; the square root, which ℚ lacks, is
passed as an explicit function parameter so that every statement that
does not depend on its numeric value is proved for all choices of it.
-/

/-! ## Rollup tier catalogue (`lightcurvedb/analysis/aggregates.py`) -/

/-- Embeds `AggregateConfig` from `analysis/aggregates.py`: the static
description of one continuous-aggregate tier. -/
structure AggregateConfig where
  view_name : String
  time_resolution : String
  bucket_interval : String
  drop_after_interval : String
  drop_schedule_interval : String
  refresh_start_offset : String
  refresh_end_offset : String
  refresh_schedule_interval : String
  evaluate_threshold_days : Int
  display_date_correction : String
deriving Repr, DecidableEq

/-- The daily tier of `AggregateConfigurations`. -/
def dailyAggregateConfig : AggregateConfig :=
  { view_name := "band_statistics_daily"
  , time_resolution := "daily"
  , bucket_interval := "1 day"
  , drop_after_interval := "1 month"
  , drop_schedule_interval := "7 days"
  , refresh_start_offset := "7 days"
  , refresh_end_offset := "1 day"
  , refresh_schedule_interval := "1 day"
  , evaluate_threshold_days := 30
  , display_date_correction := "" }

/-- The weekly tier of `AggregateConfigurations`. -/
def weeklyAggregateConfig : AggregateConfig :=
  { view_name := "band_statistics_weekly"
  , time_resolution := "weekly"
  , bucket_interval := "1 week"
  , drop_after_interval := "6 months"
  , drop_schedule_interval := "1 month"
  , refresh_start_offset := "3 weeks"
  , refresh_end_offset := "1 week"
  , refresh_schedule_interval := "1 week"
  , evaluate_threshold_days := 180
  , display_date_correction := "INTERVAL '6 days'" }

/-- The monthly tier of `AggregateConfigurations`. -/
def monthlyAggregateConfig : AggregateConfig :=
  { view_name := "band_statistics_monthly"
  , time_resolution := "monthly"
  , bucket_interval := "1 month"
  , drop_after_interval := "3 years"
  , drop_schedule_interval := "4 months"
  , refresh_start_offset := "3 months"
  , refresh_end_offset := "1 month"
  , refresh_schedule_interval := "1 week"
  , evaluate_threshold_days := 3650
  , display_date_correction := "INTERVAL '1 month' - INTERVAL '1 day'" }

/-- The ordered tier list `AggregateConfigurations` (finest first). -/
def AggregateConfigurations : List AggregateConfig :=
  [dailyAggregateConfig, weeklyAggregateConfig, monthlyAggregateConfig]

/-- Embeds `select_aggregate_config`: the Python `for` loop returns the
first configuration whose threshold is `>= delta_days`; when the loop
exhausts, the function falls off its end, which in Python yields `None`
(modelled as `Option.none`). -/
def select_aggregate_config (delta_days : Int) : Option AggregateConfig :=
  AggregateConfigurations.find? (fun config => delta_days ≤ config.evaluate_threshold_days)

/-- Embeds Python `timedelta.days` for a difference measured in seconds:
floor division by 86400 (rounds toward negative infinity). -/
def timedelta_days (delta_seconds : Int) : Int :=
  Int.fdiv delta_seconds 86400

/-- Embeds `DerivedStatisticsRegistry.get_statistics_table` from
`analysis/statistics.py`.  Datetimes are integer epoch seconds, wrapped
in `Option` for Python `None`.  When either bound is absent the monthly
configuration is picked via `next(...)`; otherwise
`select_aggregate_config((today - start_time).days)` is used.  The
returned triple is `(view_name, time_resolution,
display_date_correction)`; `none` models the `AttributeError` the Python
code would raise on a `None` configuration. -/
def get_statistics_table (start_time end_time : Option Int) (today : Int) :
    Option (String × String × String) :=
  let config : Option AggregateConfig :=
    match start_time, end_time with
    | some s, some _ => select_aggregate_config (timedelta_days (today - s))
    | _, _ => AggregateConfigurations.find? (fun c => c.time_resolution == "monthly")
  config.map (fun c => (c.view_name, c.time_resolution, c.display_date_correction))

/-! ## SQL scalar and aggregate semantics

Nullable SQL values are `Option ℚ`; binary operators are strict (null in,
null out); division by a non-null zero raises the database error
`"division by zero"`, modelled in `Except`.  `SUM` over a window with no
non-null input is `NULL`; `COUNT(*)` counts rows. -/

abbrev SqlVal := Option ℚ

/-- Strict SQL binary arithmetic operator. -/
def sqlBinOp (op : ℚ → ℚ → ℚ) : SqlVal → SqlVal → SqlVal
  | some a, some b => some (op a b)
  | _, _ => none

/-- SQL division: strict on `NULL`, raises on a non-null zero divisor. -/
def sqlDiv : SqlVal → SqlVal → Except String SqlVal
  | none, _ => .ok none
  | some _, none => .ok none
  | some a, some b => if b = 0 then .error "division by zero" else .ok (some (a / b))

/-- SQL `SUM`: `NULL` when no non-null input exists. -/
def sqlSum (terms : List SqlVal) : SqlVal :=
  match terms.filterMap id with
  | [] => none
  | v :: vs => some ((v :: vs).sum)

/-- SQL `NULLIF(x, 0)`. -/
def sqlNullIfZero : SqlVal → SqlVal
  | some x => if x = 0 then none else some x
  | none => none

/-- A strict unary SQL function (used for `SQRT`). -/
def sqlUnOp (f : ℚ → ℚ) : SqlVal → SqlVal
  | some x => some (f x)
  | none => none

/-! ## Variance expressions (`analysis/statistics.py`)

`RawMeasurementStatisticsRegistry.variance_flux` builds the SQL
expression `(SUM(f*f) - COUNT() * (SUM(f)/COUNT()) * (SUM(f)/COUNT()))
/ (COUNT() - 1)` over the raw rows; the `flux` column is `NOT NULL`. -/

/-- Embeds `RawMeasurementStatisticsRegistry.variance_flux`, evaluated
over the flux values of the selected raw rows. -/
def raw_variance_flux (fluxes : List ℚ) : Except String SqlVal := do
  let total_sum := sqlSum (fluxes.map some)
  let total_count : SqlVal := some (fluxes.length : ℚ)
  let total_sum_squared := sqlSum (fluxes.map (fun f => some (f * f)))
  let mean ← sqlDiv total_sum total_count
  let sum_of_squared_deviations :=
    sqlBinOp (· - ·) total_sum_squared
      (sqlBinOp (· * ·) (sqlBinOp (· * ·) total_count mean) mean)
  sqlDiv sum_of_squared_deviations (sqlBinOp (· - ·) total_count (some 1))

/-- One row of a `band_statistics_*` continuous-aggregate view.  A view
row exists only for a bucket holding at least one measurement, so the
flux sums and extrema are non-null; the two uncertainty sums are `NULL`
when no contributing row had a usable uncertainty. -/
structure AggregateBucketRow where
  sum_flux : ℚ
  sum_flux_squared : ℚ
  sum_inverse_uncertainty_squared : SqlVal
  sum_flux_over_uncertainty_squared : SqlVal
  min_flux : ℚ
  max_flux : ℚ
  data_points : Nat
deriving Repr, DecidableEq

/-- Embeds `DerivedStatisticsRegistry.variance_flux`: the same variance
expression with `SUM(sum_flux)`, `SUM(data_points)` and
`SUM(sum_flux_squared)` over the selected aggregate-view rows. -/
def derived_variance_flux (buckets : List AggregateBucketRow) : Except String SqlVal := do
  let total_sum := sqlSum (buckets.map (fun b => some b.sum_flux))
  let total_count := sqlSum (buckets.map (fun b => some (b.data_points : ℚ)))
  let total_sum_squared := sqlSum (buckets.map (fun b => some b.sum_flux_squared))
  let mean ← sqlDiv total_sum total_count
  let sum_of_squared_deviations :=
    sqlBinOp (· - ·) total_sum_squared
      (sqlBinOp (· * ·) (sqlBinOp (· * ·) total_count mean) mean)
  sqlDiv sum_of_squared_deviations (sqlBinOp (· - ·) total_count (some 1))

/-- Embeds `DerivedStatisticsRegistry.weighted_mean_flux`:
`SUM(sum_flux_over_uncertainty_squared) /
SUM(sum_inverse_uncertainty_squared)` over aggregate-view rows. -/
def derived_weighted_mean_flux (buckets : List AggregateBucketRow) : Except String SqlVal :=
  sqlDiv (sqlSum (buckets.map (·.sum_flux_over_uncertainty_squared)))
    (sqlSum (buckets.map (·.sum_inverse_uncertainty_squared)))

/-- Embeds `DerivedStatisticsRegistry.weighted_error_on_mean_flux`:
`1 / SQRT(SUM(sum_inverse_uncertainty_squared))`. -/
def derived_weighted_error_on_mean_flux (sqrt : ℚ → ℚ)
    (buckets : List AggregateBucketRow) : Except String SqlVal :=
  sqlDiv (some 1) (sqlUnOp sqrt (sqlSum (buckets.map (·.sum_inverse_uncertainty_squared))))

/-! ## Raw measurements and time filtering -/

/-- A raw flux measurement row of one source (`flux_measurements` table,
or one row of the per-source pandas frame).  `time` is epoch seconds as
a rational; `flux_err` is the only nullable numeric column used by the
statistics and binning paths. -/
structure Measurement where
  time : ℚ
  module : String
  frequency : Int
  ra : ℚ
  dec : ℚ
  flux : ℚ
  flux_err : Option ℚ
deriving Repr, DecidableEq

/-- Embeds the row selection of
`PandasAnalysis.get_source_statistics_for_frequency_and_module`
(`storage/pandas/analysis.py`): sequential boolean-mask filters for
module (skipped for `"all"`), frequency, then the optional
`time >= start_time` and `time <= end_time` masks. -/
def pandas_stats_filtered (table : List Measurement) (module : String) (frequency : Int)
    (start_time end_time : Option ℚ) : List Measurement :=
  let f1 := if module ≠ "all" then table.filter (fun r => r.module == module) else table
  let f2 := f1.filter (fun r => r.frequency == frequency)
  let f3 := match start_time with
    | some s => f2.filter (fun r => decide (r.time ≥ s))
    | none => f2
  match end_time with
  | some e => f3.filter (fun r => decide (r.time ≤ e))
  | none => f3

/-- Embeds the `WHERE` clause list built by
`PostgresAnalysisProvider.get_source_statistics_for_frequency_and_module`
(`storage/postgres/analysis.py`) for the rows of one source: the
frequency clause, then `time >= start_time` / `time <= end_time` when
supplied, then the module clause unless `module = 'all'`. -/
def postgres_stats_where_clauses (module : String) (frequency : Int)
    (start_time end_time : Option ℚ) : List (Measurement → Bool) :=
  let freq_clause : List (Measurement → Bool) := [fun r => r.frequency == frequency]
  let start_clause : List (Measurement → Bool) :=
    match start_time with
    | some s => [fun r => decide (r.time ≥ s)]
    | none => []
  let end_clause : List (Measurement → Bool) :=
    match end_time with
    | some e => [fun r => decide (r.time ≤ e)]
    | none => []
  let module_clause : List (Measurement → Bool) :=
    if module ≠ "all" then [fun r => r.module == module] else []
  freq_clause ++ start_clause ++ end_clause ++ module_clause

/-- Rows of one source satisfying every conjunct of the postgres `WHERE`
clause. -/
def postgres_stats_filtered (table : List Measurement) (module : String) (frequency : Int)
    (start_time end_time : Option ℚ) : List Measurement :=
  table.filter (fun r =>
    (postgres_stats_where_clauses module frequency start_time end_time).all (fun c => c r))

/-- Embeds `_build_time_filters` (`analysis/statistics.py`): the list of
time-filter conditions, `column >= start_time` and
`column <= end_time`, each present only when its bound is supplied. -/
def build_time_filters (start_time end_time : Option ℚ) : List (ℚ → Bool) :=
  let start_filter : List (ℚ → Bool) :=
    match start_time with
    | some s => [fun t => decide (t ≥ s)]
    | none => []
  let end_filter : List (ℚ → Bool) :=
    match end_time with
    | some e => [fun t => decide (t ≤ e)]
    | none => []
  start_filter ++ end_filter

/-! ## Pandas source statistics (`storage/pandas/analysis.py`) -/

/-- Minimum of a list seeded by its head (callers pass nonempty lists;
the `[]` case is unreachable and returns `0`). -/
def qmin : List ℚ → ℚ
  | [] => 0
  | x :: xs => xs.foldl min x

/-- Maximum of a list seeded by its head (callers pass nonempty lists). -/
def qmax : List ℚ → ℚ
  | [] => 0
  | x :: xs => xs.foldl max x

/-- Arithmetic mean (`Series.mean`). -/
def qmean (xs : List ℚ) : ℚ := xs.sum / (xs.length : ℚ)

/-- `Series.median`: middle element of the sorted values, or the mean of
the two middle elements for an even count. -/
def qmedian (xs : List ℚ) : ℚ :=
  let sorted := List.insertionSort (· ≤ ·) xs
  let n := sorted.length
  if n % 2 = 1 then sorted.getD (n / 2) 0
  else (sorted.getD (n / 2 - 1) 0 + sorted.getD (n / 2) 0) / 2

/-- `Series.std` with pandas' default `ddof=1`: NaN (modelled `none`)
for fewer than two values. -/
def qstddev (sqrt : ℚ → ℚ) (xs : List ℚ) : Option ℚ :=
  if xs.length < 2 then none
  else
    let m := qmean xs
    some (sqrt ((xs.map (fun x => (x - m) * (x - m))).sum / ((xs.length : ℚ) - 1)))

/-- Embeds the weighted-mean block of
`PandasAnalysis.get_source_statistics_for_frequency_and_module`: zero
uncertainties are replaced by NA (`flux_err.replace(0, pd.NA)`), weights
are `1/err²` over the valid rows, and when the weight series is empty or
sums to zero both weighted statistics are float NaN (modelled `none`);
otherwise the pair is `(Σ flux/err² / Σ 1/err², 1 / sqrt (Σ 1/err²))`. -/
def pandas_weighted (rows : List Measurement) (sqrt : ℚ → ℚ) : Option ℚ × Option ℚ :=
  let valid := rows.filterMap (fun r =>
    match r.flux_err with
    | some err => if err = 0 then none else some (r.flux, err)
    | none => none)
  let weights := valid.map (fun p => 1 / (p.2 * p.2))
  if valid.isEmpty ∨ weights.sum = 0 then (none, none)
  else
    (some ((valid.map (fun p => p.1 / (p.2 * p.2))).sum / weights.sum),
      some (1 / sqrt weights.sum))

/-- The record built by the pandas statistics path.  In
`models/statistics.py` every statistic field of `SourceStatistics` is a
non-nullable float; the fields the pandas code can populate with float
NaN (`stddev` of a single row and the weighted pair when no usable
uncertainty exists) are modelled as `Option ℚ` with `none` for NaN. -/
structure SourceStatisticsRecord where
  measurement_count : Nat
  start_time : ℚ
  end_time : ℚ
  min_flux : ℚ
  max_flux : ℚ
  mean_flux : ℚ
  stddev_flux : Option ℚ
  median_flux : ℚ
  weighted_mean_flux : Option ℚ
  weighted_error_on_mean_flux : Option ℚ
deriving Repr, DecidableEq

/-- Embeds
`PandasAnalysis.get_source_statistics_for_frequency_and_module`.  The
source's file may be absent (`table = none`), which raises
`ValueError("No flux data for source ...")`; a filter result with no
rows raises `ValueError("No flux data for source ... and combination
...")`.  Raised exceptions are modelled as `Except.error`. -/
def pandas_get_source_statistics (table : Option (List Measurement)) (module : String)
    (frequency : Int) (start_time end_time : Option ℚ) (sqrt : ℚ → ℚ) :
    Except String SourceStatisticsRecord :=
  match table with
  | none => .error "No flux data for source"
  | some t =>
    match pandas_stats_filtered t module frequency start_time end_time with
    | [] => .error "No flux data for source and combination"
    | r :: rs =>
      let filtered := r :: rs
      let flux := filtered.map (·.flux)
      let times := filtered.map (·.time)
      let weighted := pandas_weighted filtered sqrt
      .ok
        { measurement_count := filtered.length
        , start_time := qmin times
        , end_time := qmax times
        , min_flux := qmin flux
        , max_flux := qmax flux
        , mean_flux := qmean flux
        , stddev_flux := qstddev sqrt flux
        , median_flux := qmedian flux
        , weighted_mean_flux := weighted.1
        , weighted_error_on_mean_flux := weighted.2 }

/-! ## Postgres weighted statistics SQL (`storage/postgres/analysis.py`) -/

/-- The per-row term `flux / NULLIF(POWER(flux_err, 2), 0)` of the
postgres weighted-mean numerator. -/
def pg_weighted_numerator_term (r : Measurement) : Except String SqlVal :=
  sqlDiv (some r.flux) (sqlNullIfZero (sqlBinOp (· * ·) r.flux_err r.flux_err))

/-- The per-row term `1.0 / NULLIF(POWER(flux_err, 2), 0)` of the
postgres weighted-mean denominator. -/
def pg_weighted_denominator_term (r : Measurement) : Except String SqlVal :=
  sqlDiv (some 1) (sqlNullIfZero (sqlBinOp (· * ·) r.flux_err r.flux_err))

/-- Embeds the `weighted_mean_flux` column of the postgres statistics
query: `SUM(flux / NULLIF(POWER(flux_err, 2), 0)) /
NULLIF(SUM(1.0 / NULLIF(POWER(flux_err, 2), 0)), 0)` over the selected
rows. -/
def pg_weighted_mean_flux (rows : List Measurement) : Except String SqlVal := do
  let numerator_terms ← rows.mapM pg_weighted_numerator_term
  let denominator_terms ← rows.mapM pg_weighted_denominator_term
  sqlDiv (sqlSum numerator_terms) (sqlNullIfZero (sqlSum denominator_terms))

/-- Embeds the `weighted_error_on_mean_flux` column of the postgres
statistics query:
`1.0 / SQRT(NULLIF(SUM(1.0 / NULLIF(POWER(flux_err, 2), 0)), 0))`. -/
def pg_weighted_error_on_mean_flux (sqrt : ℚ → ℚ) (rows : List Measurement) :
    Except String SqlVal := do
  let denominator_terms ← rows.mapM pg_weighted_denominator_term
  sqlDiv (some 1) (sqlUnOp sqrt (sqlNullIfZero (sqlSum denominator_terms)))

/-! ## Binned lightcurves

`storage/pandas/lightcurves.py`, `storage/parquet/lightcurves.py`,
`storage/postgres/lightcurves.py` and the continuous aggregates of
`storage/timescale/schema.py`. -/

/-- One point of a binned lightcurve. -/
structure BinnedPoint where
  time : ℚ
  ra : ℚ
  dec : ℚ
  flux : ℚ
  flux_err : Option ℚ
deriving Repr, DecidableEq

/-- The bucket a timestamp falls in: both Postgres
`date_bin(width, time, start)` and
`pd.Grouper(freq=width, origin=start, closed="left")` assign `t` to the
bucket starting at `start + i * width` with `i = ⌊(t - start) / width⌋`. -/
def bucket_index (start_time width t : ℚ) : Int := Int.floor ((t - start_time) / width)

/-- Start timestamp of bucket `i` anchored at `start_time`. -/
def bucket_start (start_time width : ℚ) (i : Int) : ℚ := start_time + (i : ℚ) * width

/-- Minimum of an integer list seeded by its head (callers pass nonempty
lists). -/
def imin : List Int → Int
  | [] => 0
  | x :: xs => xs.foldl min x

/-- Maximum of an integer list seeded by its head (callers pass nonempty
lists). -/
def imax : List Int → Int
  | [] => 0
  | x :: xs => xs.foldl max x

/-- The integers from `lo` to `hi` inclusive. -/
def intRange (lo hi : Int) : List Int :=
  (List.range (hi - lo + 1).toNat).map (fun n : Nat => lo + (n : Int))

/-- The row subset both SQL and pandas binned-lightcurve paths select:
module and frequency match and `start_time <= time < end_time` (this is
the single boolean mask of `storage/pandas/lightcurves.py` and the
`WHERE` conjunction of `storage/postgres/lightcurves.py`). -/
def binned_subset (table : List Measurement) (module : String) (frequency : Int)
    (start_time end_time : ℚ) : List Measurement :=
  table.filter (fun r =>
    r.module == module && r.frequency == frequency &&
      decide (r.time ≥ start_time) && decide (r.time < end_time))

/-- Per-bucket combination of the pandas binned loop
(`storage/pandas/lightcurves.py`): label `bin_start + interval/2`, mean
ra/dec/flux, and `sqrt(sum(flux_err²)) / len(flux_err)` over the
non-null uncertainties, `None` when all are null. -/
def pandas_bin_combine (bin_start interval : ℚ) (group : List Measurement)
    (sqrt : ℚ → ℚ) : BinnedPoint :=
  let errs := (group.map (·.flux_err)).filterMap id
  { time := bin_start + interval / 2
  , ra := qmean (group.map (·.ra))
  , dec := qmean (group.map (·.dec))
  , flux := qmean (group.map (·.flux))
  , flux_err :=
      if errs.isEmpty then none
      else some (sqrt ((errs.map (fun x => x * x)).sum) / (errs.length : ℚ)) }

/-- Embeds the grouped loop of
`PandasLightcurves.get_binned_instrument_lightcurve`
(`storage/pandas/lightcurves.py`): `pd.Grouper` enumerates every
bucket between the first and last occupied one; the loop skips empty
groups and combines the rest in ascending order. -/
def pandas_binned_points (subset : List Measurement) (width start_time : ℚ)
    (sqrt : ℚ → ℚ) : List BinnedPoint :=
  match subset with
  | [] => []
  | r :: rs =>
    let idxs := (r :: rs).map (fun m => bucket_index start_time width m.time)
    (intRange (imin idxs) (imax idxs)).filterMap (fun i =>
      let group := (r :: rs).filter (fun m => bucket_index start_time width m.time == i)
      if group.isEmpty then none
      else some (pandas_bin_combine (bucket_start start_time width i) width group sqrt))

/-- Per-bucket combination of the postgres binned subquery
(`storage/postgres/lightcurves.py`): `date_bin(...) + width/2`,
`avg(ra)`, `avg(dec)`, `avg(flux)`, and the `CASE` expression
`sqrt(sum(flux_err ^ 2)) / count(flux_err)` over non-null uncertainties,
`NULL` when none exists. -/
def postgres_bin_combine (bin : ℚ) (width : ℚ) (group : List Measurement)
    (sqrt : ℚ → ℚ) : BinnedPoint :=
  let errs := (group.map (·.flux_err)).filterMap id
  { time := bin + width / 2
  , ra := qmean (group.map (·.ra))
  , dec := qmean (group.map (·.dec))
  , flux := qmean (group.map (·.flux))
  , flux_err :=
      if errs.isEmpty then none
      else some (sqrt ((errs.map (fun x => x * x)).sum) / (errs.length : ℚ)) }

/-- Embeds the `GROUP BY date_bin(...) ORDER BY bin_time` subquery of
`PostgresLightcurveProvider.get_binned_instrument_lightcurve`: one
output row per distinct occupied bucket, ascending. -/
def postgres_binned_points (subset : List Measurement) (width start_time : ℚ)
    (sqrt : ℚ → ℚ) : List BinnedPoint :=
  let keys := List.insertionSort (· ≤ ·)
    ((subset.map (fun m => bucket_index start_time width m.time)).dedup)
  keys.map (fun i =>
    postgres_bin_combine (bucket_start start_time width i) width
      (subset.filter (fun m => bucket_index start_time width m.time == i)) sqrt)

/-- Embeds `PandasLightcurves.get_binned_instrument_lightcurve` of the
pandas file backend end to end: absent file or empty subset give an
empty point list; otherwise the grouped loop runs and `rows[:limit]` is
returned. -/
def pandas_get_binned_instrument_lightcurve (table : Option (List Measurement))
    (module : String) (frequency : Int) (width start_time end_time : ℚ)
    (sqrt : ℚ → ℚ) (limit : Nat) : List BinnedPoint :=
  match table with
  | none => []
  | some t =>
    (pandas_binned_points (binned_subset t module frequency start_time end_time)
      width start_time sqrt).take limit

/-- Embeds `PostgresLightcurveProvider.get_binned_instrument_lightcurve`
end to end over the rows of one source: the binned subquery with its
`LIMIT`, aggregated into arrays (the point list). -/
def postgres_get_binned_instrument_lightcurve (rows : List Measurement)
    (module : String) (frequency : Int) (width start_time end_time : ℚ)
    (sqrt : ℚ → ℚ) (limit : Nat) : List BinnedPoint :=
  (postgres_binned_points (binned_subset rows module frequency start_time end_time)
    width start_time sqrt).take limit

/-- Embeds `PandasLightcurves._rolling_binned_table` of the parquet file
backend (`storage/parquet/lightcurves.py`): the subset is sorted by time
and `rolling(window=width, min_periods=1, center=True)` is evaluated at
every row, producing one output point per raw row labelled with the
row's own timestamp.  pandas' time-based windows are right-closed, so
the centred window at `t` covers `(t - width/2, t + width/2]`. -/
def parquet_rolling_binned (subset : List Measurement) (width : ℚ)
    (sqrt : ℚ → ℚ) : List BinnedPoint :=
  let sorted := List.insertionSort (fun a b : Measurement => a.time ≤ b.time) subset
  sorted.map (fun r =>
    let window := sorted.filter (fun m =>
      decide (r.time - width / 2 < m.time) && decide (m.time ≤ r.time + width / 2))
    let errs := (window.map (·.flux_err)).filterMap id
    { time := r.time
    , ra := qmean (window.map (·.ra))
    , dec := qmean (window.map (·.dec))
    , flux := qmean (window.map (·.flux))
    , flux_err :=
        if errs.isEmpty then none
        else some (sqrt ((errs.map (fun x => x * x)).sum) / (errs.length : ℚ)) })

/-- Embeds `PandasLightcurves.get_binned_instrument_lightcurve` of the
parquet file backend: absent file or empty subset give an empty point
list; otherwise the rolling table is built and `head(limit)` taken. -/
def parquet_get_binned_instrument_lightcurve (table : Option (List Measurement))
    (module : String) (frequency : Int) (width start_time end_time : ℚ)
    (sqrt : ℚ → ℚ) (limit : Nat) : List BinnedPoint :=
  match table with
  | none => []
  | some t =>
    (parquet_rolling_binned (binned_subset t module frequency start_time end_time)
      width sqrt).take limit

/-- The binning contract of §4.4 of the specification, written from the
spec's words for comparison with the implementations: raw rows are
grouped into the non-overlapping half-open windows
`[bucket_start, bucket_start + width)` anchored at `start_time`;
occupied windows are emitted in ascending order, empty ones omitted;
per window flux/ra/dec are arithmetic means, the uncertainty combines
in quadrature divided by the count of non-null uncertainties, and the
label is the window centre. -/
def spec_binned_lightcurve (subset : List Measurement) (width start_time : ℚ)
    (sqrt : ℚ → ℚ) : List BinnedPoint :=
  let occupied := List.insertionSort (· ≤ ·)
    ((subset.map (fun m => bucket_index start_time width m.time)).dedup)
  occupied.map (fun i =>
    let b := bucket_start start_time width i
    let group := subset.filter (fun m => decide (b ≤ m.time) && decide (m.time < b + width))
    let errs := (group.map (·.flux_err)).filterMap id
    { time := b + width / 2
    , ra := qmean (group.map (·.ra))
    , dec := qmean (group.map (·.dec))
    , flux := qmean (group.map (·.flux))
    , flux_err :=
        if errs.isEmpty then none
        else some (sqrt ((errs.map (fun x => x * x)).sum) / (errs.length : ℚ)) })

/-- One row of the `flux_daily` / `flux_weekly` / `flux_monthly`
continuous aggregates (`storage/timescale/schema.py`). -/
structure TimescaleAggregateRow where
  bucket : ℚ
  avg_ra : ℚ
  avg_dec : ℚ
  avg_flux : ℚ
  avg_flux_err : Option ℚ
deriving Repr, DecidableEq

/-- Embeds the per-bucket expressions of the timescale continuous
aggregates: `avg(ra)`, `avg(dec)`, `avg(flux)` and the `CASE`
quadrature combination of `flux_err` over one `time_bucket` group. -/
def timescale_bucket_row (bucket : ℚ) (group : List Measurement)
    (sqrt : ℚ → ℚ) : TimescaleAggregateRow :=
  let errs := (group.map (·.flux_err)).filterMap id
  { bucket := bucket
  , avg_ra := qmean (group.map (·.ra))
  , avg_dec := qmean (group.map (·.dec))
  , avg_flux := qmean (group.map (·.flux))
  , avg_flux_err :=
      if errs.isEmpty then none
      else some (sqrt ((errs.map (fun x => x * x)).sum) / (errs.length : ℚ)) }

/-! ## Example rows used by concrete counterexamples and witnesses -/

/-- A measurement of module "A", frequency 90. -/
def exampleRowA : Measurement :=
  { time := 0, module := "A", frequency := 90, ra := 10, dec := 20, flux := 5,
    flux_err := some 1 }

/-- A measurement of module "M1", frequency 145. -/
def exampleRowC : Measurement :=
  { time := 5, module := "M1", frequency := 145, ra := 1, dec := 2, flux := 7,
    flux_err := some 2 }

/-- A measurement with no usable uncertainty. -/
def exampleRowNull : Measurement :=
  { time := 3, module := "M2", frequency := 225, ra := 4, dec := 5, flux := 9,
    flux_err := none }

/-! ## Claim theorems -/

/-- C3: the claim says `select_aggregate_config` returns the monthly
tier for every `delta_days > 3650` and never an absent result.  The
code's `for` loop has no fallback: at `delta_days = 3651` it falls off
the end and returns `None`, and `get_statistics_table` then propagates
the absent configuration (in Python, an `AttributeError` on
`config.view_name`).  This theorem evaluates the embedded code at the
failing input; the second conjunct shows the bounded inputs still work,
pinning the divergence to the overflow case alone. -/
theorem select_aggregate_config_overflow_is_none :
    select_aggregate_config 3651 = none ∧
      get_statistics_table (some 0) (some 86400) (3651 * 86400) = none ∧
      select_aggregate_config 3650 = some monthlyAggregateConfig := by
  refine ⟨rfl, ?_, rfl⟩
  rfl

/-- C4: tier-boundary selection.  `delta_days` equal to a tier's
threshold selects that tier (30 → daily, 180 → weekly, 3650 → monthly);
one day past the threshold selects the next coarser tier (31 → weekly,
181 → monthly). -/
theorem select_aggregate_config_boundary_ties :
    select_aggregate_config 30 = some dailyAggregateConfig ∧
      select_aggregate_config 31 = some weeklyAggregateConfig ∧
      select_aggregate_config 180 = some weeklyAggregateConfig ∧
      select_aggregate_config 181 = some monthlyAggregateConfig ∧
      select_aggregate_config 3650 = some monthlyAggregateConfig :=
  ⟨rfl, rfl, rfl, rfl, rfl⟩

/-- C10: `get_statistics_table` picks the monthly tier unconditionally
whenever either bound is `None` — including a supplied `start_time` with
an open end — and runs `delta_days`-based selection only when both
bounds are present. -/
theorem get_statistics_table_open_end_is_monthly :
    (∀ s today : Int, get_statistics_table (some s) none today =
        some ("band_statistics_monthly", "monthly",
          "INTERVAL '1 month' - INTERVAL '1 day'")) ∧
      (∀ e today : Int, get_statistics_table none (some e) today =
        some ("band_statistics_monthly", "monthly",
          "INTERVAL '1 month' - INTERVAL '1 day'")) ∧
      (∀ today : Int, get_statistics_table none none today =
        some ("band_statistics_monthly", "monthly",
          "INTERVAL '1 month' - INTERVAL '1 day'")) ∧
      (∀ s e today : Int, get_statistics_table (some s) (some e) today =
        (select_aggregate_config (timedelta_days (today - s))).map
          (fun c => (c.view_name, c.time_resolution, c.display_date_correction))) :=
  ⟨fun _ _ => rfl, fun _ _ => rfl, fun _ => rfl, fun _ _ _ => rfl⟩

/-- C6: the claim says `variance_flux` is null for `data_points < 2` and
the division by `(data_points - 1)` never raises.  The SQL expression
has no `NULLIF` guard, so a single measurement (`data_points = 1`)
evaluates `0 / 0` and raises the database error "division by zero", in
both the raw-measurement and the aggregate-view registries.  Zero rows
(strict `NULL` propagation) and two rows still behave as specified. -/
theorem variance_flux_single_point_divides_by_zero :
    raw_variance_flux [10] = .error "division by zero" ∧
      derived_variance_flux
        [{ sum_flux := 10, sum_flux_squared := 100,
           sum_inverse_uncertainty_squared := none,
           sum_flux_over_uncertainty_squared := none,
           min_flux := 10, max_flux := 10, data_points := 1 }] =
        .error "division by zero" ∧
      raw_variance_flux [] = .ok none ∧
      raw_variance_flux [10, 12] = .ok (some 2) := by
  refine ⟨?_, ?_, ?_, ?_⟩ <;>
    · simp only [raw_variance_flux, derived_variance_flux, sqlSum, sqlDiv, sqlBinOp,
        List.map, List.filterMap, List.length, bind, Except.bind]
      try norm_num

/-- C1 counterexample: the claim says an unknown source/band
combination yields an empty statistics record with null fields and
`measurement_count = 0`, never an exception, in every backend.  The
pandas backend instead raises `ValueError` when the filtered frame is
empty: querying module "B" against a table holding only module "A"
produces the error, not a record. -/
theorem pandas_statistics_unknown_combination_raises :
    pandas_get_source_statistics (some [exampleRowA]) "B" 90 none none id =
      .error "No flux data for source and combination" := rfl

/-- C1 (amended): for a source with no stored file the pandas backend
raises `ValueError("No flux data for source ...")`, and for a stored
table whose module/frequency/time filter selects no row it raises
`ValueError("No flux data for source ... and combination ...")` — it
never returns an empty statistics record (whose statistic fields the
`SourceStatistics` model declares non-nullable in any case). -/
theorem pandas_statistics_empty_selection_is_error :
    (∀ (module : String) (frequency : Int) (s e : Option ℚ) (sqrt : ℚ → ℚ),
        pandas_get_source_statistics none module frequency s e sqrt =
          .error "No flux data for source") ∧
      ∀ (t : List Measurement) (module : String) (frequency : Int) (s e : Option ℚ)
        (sqrt : ℚ → ℚ),
        pandas_stats_filtered t module frequency s e = [] →
        pandas_get_source_statistics (some t) module frequency s e sqrt =
          .error "No flux data for source and combination" := by
  refine ⟨fun _ _ _ _ _ => rfl, ?_⟩
  intro t module frequency s e sqrt h
  simp only [pandas_get_source_statistics, h]

/-- Witness for C1: the amended theorem applied at a concrete input (a
one-row table of frequency 90 queried at frequency 150). -/
theorem pandas_statistics_empty_selection_is_error_witness :
    pandas_get_source_statistics (some [exampleRowA]) "A" 150 none none id =
      .error "No flux data for source and combination" :=
  pandas_statistics_empty_selection_is_error.2 [exampleRowA] "A" 150 none none id rfl

/-- Division whose divisor is guarded by `NULLIF(·, 0)` can never raise. -/
lemma sqlDiv_nullIfZero_isOk (a b : SqlVal) : ∃ v, sqlDiv a (sqlNullIfZero b) = .ok v := by
  cases a with
  | none => exact ⟨none, rfl⟩
  | some x =>
    cases b with
    | none => exact ⟨none, rfl⟩
    | some y =>
      by_cases hy : y = 0
      · exact ⟨none, by simp [sqlNullIfZero, hy, sqlDiv]⟩
      · exact ⟨some (x / y), by simp [sqlNullIfZero, hy, sqlDiv]⟩

/-- `sqlDiv` with a `NULL` divisor is `NULL`, never an error. -/
lemma sqlDiv_none_right (a : SqlVal) : sqlDiv a none = .ok none := by
  cases a <;> rfl

/-- A postgres weighted-denominator term is `NULL` or strictly positive. -/
lemma pg_denominator_term_none_or_pos (r : Measurement) :
    pg_weighted_denominator_term r = .ok none ∨
      ∃ q, pg_weighted_denominator_term r = .ok (some q) ∧ 0 < q := by
  unfold pg_weighted_denominator_term
  cases herr : r.flux_err with
  | none => left; rfl
  | some e =>
    by_cases he : e = 0
    · left
      simp [sqlBinOp, sqlNullIfZero, he, sqlDiv]
    · right
      refine ⟨1 / (e * e), ?_, ?_⟩
      · have hee : ¬(e * e = 0) := by simpa [mul_self_eq_zero] using he
        simp [sqlBinOp, sqlNullIfZero, hee, sqlDiv]
      · exact div_pos one_pos (mul_self_pos.mpr he)

/-- With no usable uncertainty, the postgres denominator term is `NULL`. -/
lemma pg_denominator_term_null (r : Measurement)
    (h : r.flux_err = none ∨ r.flux_err = some 0) :
    pg_weighted_denominator_term r = .ok none := by
  unfold pg_weighted_denominator_term
  rcases h with h | h <;> simp [h, sqlBinOp, sqlNullIfZero, sqlDiv]

/-- With no usable uncertainty, the postgres numerator term is `NULL`. -/
lemma pg_numerator_term_null (r : Measurement)
    (h : r.flux_err = none ∨ r.flux_err = some 0) :
    pg_weighted_numerator_term r = .ok none := by
  unfold pg_weighted_numerator_term
  rcases h with h | h <;> simp [h, sqlBinOp, sqlNullIfZero, sqlDiv]

/-- `mapM` over `Except` where every element evaluates to `.ok none`. -/
lemma mapM_except_all_none {α : Type} (g : α → Except String SqlVal) :
    ∀ l : List α, (∀ r ∈ l, g r = .ok none) →
      l.mapM g = .ok (l.map (fun _ => (none : SqlVal))) := by
  intro l
  induction l with
  | nil => intro _; rfl
  | cons a t ih =>
    intro h
    rw [List.mapM_cons, h a (List.mem_cons_self a t),
      ih (fun r hr => h r (List.mem_cons_of_mem a hr))]
    rfl

/-- `mapM` over `Except` where every element evaluates to an `.ok` value
satisfying `P` succeeds with all outputs satisfying `P`. -/
lemma mapM_except_exists {α : Type} (g : α → Except String SqlVal) (P : SqlVal → Prop) :
    ∀ l : List α, (∀ r ∈ l, ∃ v, g r = .ok v ∧ P v) →
      ∃ out, l.mapM g = .ok out ∧ ∀ t ∈ out, P t := by
  intro l
  induction l with
  | nil => intro _; exact ⟨[], rfl, by simp⟩
  | cons a t ih =>
    intro h
    obtain ⟨v, hv, hPv⟩ := h a (List.mem_cons_self a t)
    obtain ⟨out, hout, hPout⟩ := ih (fun r hr => h r (List.mem_cons_of_mem a hr))
    refine ⟨v :: out, ?_, ?_⟩
    · rw [List.mapM_cons, hv, hout]; rfl
    · intro x hx
      rcases List.mem_cons.mp hx with h1 | h2
      · exact h1 ▸ hPv
      · exact hPout x h2

/-- `SUM` over all-`NULL` terms is `NULL`. -/
lemma sqlSum_all_none (l : List SqlVal) (h : ∀ t ∈ l, t = none) : sqlSum l = none := by
  unfold sqlSum
  have hnil : l.filterMap id = [] := by
    rw [List.filterMap_eq_nil_iff]
    intro a ha
    rw [h a ha]
    rfl
  rw [hnil]

/-- `SUM` over a list of `NULL`s is `NULL`. -/
lemma sqlSum_replicate_none (n : Nat) : sqlSum (List.replicate n none) = none :=
  sqlSum_all_none _ (fun _ ht => List.eq_of_mem_replicate ht)

/-- `SUM` over terms that are each `NULL` or positive is `NULL` or
positive. -/
lemma sqlSum_none_or_pos (l : List SqlVal)
    (h : ∀ t ∈ l, t = none ∨ ∃ q, t = some q ∧ 0 < q) :
    sqlSum l = none ∨ ∃ q, sqlSum l = some q ∧ 0 < q := by
  unfold sqlSum
  cases hfm : l.filterMap id with
  | nil => left; rfl
  | cons v vs =>
    right
    refine ⟨(v :: vs).sum, rfl, ?_⟩
    apply List.sum_pos
    · intro x hx
      have hx' : x ∈ l.filterMap id := hfm ▸ hx
      obtain ⟨t, ht, hid⟩ := List.mem_filterMap.mp hx'
      rcases h t ht with h1 | ⟨q, hq, hqpos⟩
      · rw [h1] at hid; cases hid
      · rw [hq] at hid
        cases hid
        exact hqpos
    · exact List.cons_ne_nil v vs

/-- C7 counterexample: the claim says that for every input with
`data_points == 0` the weighted mean flux and weighted error are null
(or NaN), never a raised error, in every backend.  In the pandas
backend a query whose filter matches no measurement (here frequency 90
against a table holding only frequency 145) raises `ValueError` and
returns no statistics record at all, so the weighted fields are not
null there. -/
theorem pandas_weighted_stats_zero_count_raises :
    pandas_get_source_statistics (some [exampleRowC]) "M1" 90 none none id =
      .error "No flux data for source and combination" := rfl

/-- C7 (amended): whenever the summed inverse-uncertainty-squared
weight is zero because no selected measurement has a usable (non-null,
non-zero) uncertainty, the weighted mean and weighted error are NaN in
the pandas backend and SQL `NULL` in the postgres query and in the
aggregate-view registry, and the guarded divisions never raise — except
that when *no row at all* matches, the pandas backend raises
`ValueError` instead of returning null statistics (see the
counterexample).  The last three conjuncts show the postgres and
derived expressions never raise a division error on any input (for the
error column, under a square root that is positive on positives). -/
theorem weighted_mean_zero_weight_is_null :
    (∀ (rows : List Measurement) (sqrt : ℚ → ℚ),
        (∀ r ∈ rows, r.flux_err = none ∨ r.flux_err = some 0) →
        pandas_weighted rows sqrt = (none, none)) ∧
      (∀ rows : List Measurement,
        (∀ r ∈ rows, r.flux_err = none ∨ r.flux_err = some 0) →
        pg_weighted_mean_flux rows = .ok none) ∧
      (∀ (sqrt : ℚ → ℚ) (rows : List Measurement),
        (∀ r ∈ rows, r.flux_err = none ∨ r.flux_err = some 0) →
        pg_weighted_error_on_mean_flux sqrt rows = .ok none) ∧
      (∀ rows : List Measurement, ∃ v, pg_weighted_mean_flux rows = .ok v) ∧
      (∀ sqrt : ℚ → ℚ, (∀ q : ℚ, 0 < q → 0 < sqrt q) →
        ∀ rows : List Measurement, ∃ v, pg_weighted_error_on_mean_flux sqrt rows = .ok v) ∧
      (∀ (sqrt : ℚ → ℚ) (buckets : List AggregateBucketRow),
        (∀ b ∈ buckets, b.sum_inverse_uncertainty_squared = none) →
        derived_weighted_mean_flux buckets = .ok none ∧
          derived_weighted_error_on_mean_flux sqrt buckets = .ok none) := by
  refine ⟨?_, ?_, ?_, ?_, ?_, ?_⟩
  · -- pandas: no valid uncertainty leaves the valid list empty
    intro rows sqrt h
    have hvalid : rows.filterMap (fun r =>
        match r.flux_err with
        | some err => if err = 0 then none else some (r.flux, err)
        | none => none) = [] := by
      rw [List.filterMap_eq_nil_iff]
      intro r hr
      rcases h r hr with h1 | h1 <;> simp [h1]
    simp [pandas_weighted, hvalid]
  · -- postgres weighted mean: both aggregate inputs are all-NULL
    intro rows h
    unfold pg_weighted_mean_flux
    rw [mapM_except_all_none _ rows (fun r hr => pg_numerator_term_null r (h r hr)),
      mapM_except_all_none _ rows (fun r hr => pg_denominator_term_null r (h r hr))]
    simp [bind, Except.bind, sqlSum_replicate_none, sqlNullIfZero, sqlDiv_none_right]
  · -- postgres weighted error: the denominator sum is NULL
    intro sqrt rows h
    unfold pg_weighted_error_on_mean_flux
    rw [mapM_except_all_none _ rows (fun r hr => pg_denominator_term_null r (h r hr))]
    simp [bind, Except.bind, sqlSum_replicate_none, sqlNullIfZero, sqlUnOp,
      sqlDiv_none_right]
  · -- postgres weighted mean never raises
    intro rows
    obtain ⟨nums, hnums, -⟩ :=
      mapM_except_exists pg_weighted_numerator_term (fun _ => True) rows
        (fun r _ => by
          obtain ⟨v, hv⟩ := sqlDiv_nullIfZero_isOk (some r.flux)
            (sqlBinOp (· * ·) r.flux_err r.flux_err)
          exact ⟨v, hv, trivial⟩)
    obtain ⟨dens, hdens, -⟩ :=
      mapM_except_exists pg_weighted_denominator_term (fun _ => True) rows
        (fun r _ => by
          obtain ⟨v, hv⟩ := sqlDiv_nullIfZero_isOk (some 1)
            (sqlBinOp (· * ·) r.flux_err r.flux_err)
          exact ⟨v, hv, trivial⟩)
    obtain ⟨v, hv⟩ := sqlDiv_nullIfZero_isOk (sqlSum nums) (sqlSum dens)
    refine ⟨v, ?_⟩
    unfold pg_weighted_mean_flux
    rw [hnums, hdens]
    simpa [bind, Except.bind] using hv
  · -- postgres weighted error never raises under a genuine square root
    intro sqrt hsqrt rows
    obtain ⟨dens, hdens, hP⟩ :=
      mapM_except_exists pg_weighted_denominator_term
        (fun t => t = none ∨ ∃ q, t = some q ∧ 0 < q) rows
        (fun r _ => by
          rcases pg_denominator_term_none_or_pos r with h1 | ⟨q, hq, hqpos⟩
          · exact ⟨none, h1, Or.inl rfl⟩
          · exact ⟨some q, hq, Or.inr ⟨q, rfl, hqpos⟩⟩)
    rcases sqlSum_none_or_pos dens hP with hsum | ⟨q, hsum, hqpos⟩
    · refine ⟨none, ?_⟩
      unfold pg_weighted_error_on_mean_flux
      rw [hdens]
      simp [bind, Except.bind, hsum, sqlNullIfZero, sqlUnOp, sqlDiv_none_right]
    · refine ⟨some (1 / sqrt q), ?_⟩
      unfold pg_weighted_error_on_mean_flux
      rw [hdens]
      have hq0 : ¬(q = 0) := ne_of_gt hqpos
      have hsq0 : ¬(sqrt q = 0) := ne_of_gt (hsqrt q hqpos)
      simp [bind, Except.bind, hsum, sqlNullIfZero, hq0, sqlUnOp, sqlDiv, hsq0]
  · -- aggregate-view registry: the denominator SUM is NULL
    intro sqrt buckets h
    have hsum : sqlSum (buckets.map (·.sum_inverse_uncertainty_squared)) = none :=
      sqlSum_all_none _ (by
        intro t ht
        obtain ⟨b, hb, hbt⟩ := List.mem_map.mp ht
        rw [← hbt]
        exact h b hb)
    constructor
    · unfold derived_weighted_mean_flux
      rw [hsum]
      exact sqlDiv_none_right _
    · unfold derived_weighted_error_on_mean_flux
      rw [hsum]
      rfl

/-- Witness for C7: the amended theorem applied to the one-row list
whose measurement has a null uncertainty, with `sqrt := id`. -/
theorem weighted_mean_zero_weight_is_null_witness :
    pandas_weighted [exampleRowNull] id = (none, none) ∧
      pg_weighted_mean_flux [exampleRowNull] = .ok none :=
  ⟨weighted_mean_zero_weight_is_null.1 [exampleRowNull] id
      (by intro r hr; rw [List.mem_singleton] at hr; subst hr; exact Or.inl rfl),
    weighted_mean_zero_weight_is_null.2.1 [exampleRowNull]
      (by intro r hr; rw [List.mem_singleton] at hr; subst hr; exact Or.inl rfl)⟩

/-- C8: with both bounds supplied, the pandas mask, the postgres
`WHERE` clause and `_build_time_filters` all apply the inclusive start
bound `time >= start_time` together with the same inclusive end bound
`time <= end_time`: the two backend row selections are equal as
functions, the shared filter list is exactly the conjunction of the two
inclusive comparisons, and a measurement whose timestamp equals
`end_time` is selected. -/
theorem time_filters_inclusive_and_identical :
    ∀ (s e : ℚ) (table : List Measurement) (module : String) (frequency : Int),
      (pandas_stats_filtered table module frequency (some s) (some e) =
        postgres_stats_filtered table module frequency (some s) (some e)) ∧
      (∀ t : ℚ, (build_time_filters (some s) (some e)).all (fun f => f t) =
        (decide (t ≥ s) && decide (t ≤ e))) ∧
      (∀ r : Measurement, r ∈ table → (module = "all" ∨ r.module = module) →
        r.frequency = frequency → s ≤ r.time → r.time = e →
        r ∈ pandas_stats_filtered table module frequency (some s) (some e)) := by
  intro s e table module frequency
  refine ⟨?_, ?_, ?_⟩
  · simp only [pandas_stats_filtered, postgres_stats_filtered, postgres_stats_where_clauses]
    by_cases hm : module = "all"
    · simp only [hm, ne_eq, not_true_eq_false, if_false, List.nil_append,
        List.append_nil, List.cons_append]
      rw [List.filter_filter, List.filter_filter]
      apply List.filter_congr
      intro r _
      simp only [List.all_cons, List.all_nil]
      cases r.frequency == frequency <;> cases decide (r.time ≥ s) <;>
        cases decide (r.time ≤ e) <;> rfl
    · simp only [ne_eq, hm, not_false_eq_true, if_true, List.nil_append,
        List.append_nil, List.cons_append]
      rw [List.filter_filter, List.filter_filter, List.filter_filter]
      apply List.filter_congr
      intro r _
      simp only [List.all_cons, List.all_nil]
      cases r.module == module <;> cases r.frequency == frequency <;>
        cases decide (r.time ≥ s) <;> cases decide (r.time ≤ e) <;> rfl
  · intro t
    simp [build_time_filters]
  · intro r hr hmod hf hs he
    simp only [pandas_stats_filtered]
    rcases hmod with hm | hm
    · simp [hm, List.mem_filter, hr, hf, hs, he.le]
    · by_cases hma : module = "all"
      · simp [hma, List.mem_filter, hr, hf, hs, he.le]
      · simp [hma, hm, List.mem_filter, hr, hf, hs, he.le]

/-- Witness for C8: the theorem applied at `s = 0`, `e = 5`, a
single-row table whose measurement sits exactly at the end bound. -/
theorem time_filters_inclusive_and_identical_witness :
    ({ time := 5, module := "M1", frequency := 145, ra := 1, dec := 2, flux := 7,
       flux_err := some 2 } : Measurement) ∈
      pandas_stats_filtered [exampleRowC] "all" 145 (some 0) (some 5) :=
  (time_filters_inclusive_and_identical 0 5 [exampleRowC] "all" 145).2.2
    exampleRowC (List.mem_singleton.mpr rfl) (Or.inl rfl) rfl (by norm_num [exampleRowC]) rfl


/-- C9: for every non-empty bucket the pandas loop, the postgres binned
subquery and the timescale continuous aggregates combine rows by the
same rule: flux, ra and dec are arithmetic means, and the combined
uncertainty is `sqrt(sum of squared non-null errors) / count(non-null
errors)` when at least one error is present, null when every
contributing error is null. -/
theorem bin_combine_rule_identical :
    ∀ (sqrt : ℚ → ℚ) (b width : ℚ) (group : List Measurement), group ≠ [] →
      (pandas_bin_combine b width group sqrt = postgres_bin_combine b width group sqrt) ∧
      ((postgres_bin_combine b width group sqrt).ra =
          (timescale_bucket_row b group sqrt).avg_ra ∧
        (postgres_bin_combine b width group sqrt).dec =
          (timescale_bucket_row b group sqrt).avg_dec ∧
        (postgres_bin_combine b width group sqrt).flux =
          (timescale_bucket_row b group sqrt).avg_flux ∧
        (postgres_bin_combine b width group sqrt).flux_err =
          (timescale_bucket_row b group sqrt).avg_flux_err) ∧
      ((pandas_bin_combine b width group sqrt).flux =
        (group.map (·.flux)).sum / (group.length : ℚ)) ∧
      ((pandas_bin_combine b width group sqrt).ra =
        (group.map (·.ra)).sum / (group.length : ℚ)) ∧
      ((pandas_bin_combine b width group sqrt).dec =
        (group.map (·.dec)).sum / (group.length : ℚ)) ∧
      (((pandas_bin_combine b width group sqrt).flux_err = none) ↔
        ∀ r ∈ group, r.flux_err = none) ∧
      (∀ errs : List ℚ, errs = (group.map (·.flux_err)).filterMap id → errs ≠ [] →
        (pandas_bin_combine b width group sqrt).flux_err =
          some (sqrt ((errs.map (fun x => x * x)).sum) / (errs.length : ℚ))) := by
  intro sqrt b width group hne
  have hiff : ((group.map (·.flux_err)).filterMap id) = [] ↔
      ∀ r ∈ group, r.flux_err = none := by
    rw [List.filterMap_eq_nil_iff]
    constructor
    · intro h r hr
      exact h r.flux_err (List.mem_map_of_mem _ hr)
    · intro h a ha
      obtain ⟨r, hr, hra⟩ := List.mem_map.mp ha
      rw [← hra]
      exact h r hr
  have hfe : (pandas_bin_combine b width group sqrt).flux_err =
      (if ((group.map (·.flux_err)).filterMap id).isEmpty then none
       else some (sqrt ((((group.map (·.flux_err)).filterMap id).map
         (fun x => x * x)).sum) /
           (((group.map (·.flux_err)).filterMap id).length : ℚ))) := rfl
  refine ⟨rfl, ⟨rfl, rfl, rfl, rfl⟩, ?_, ?_, ?_, ?_, ?_⟩
  · simp [pandas_bin_combine, qmean]
  · simp [pandas_bin_combine, qmean]
  · simp [pandas_bin_combine, qmean]
  · rw [hfe]
    by_cases hc : ((group.map (·.flux_err)).filterMap id).isEmpty
    · rw [if_pos hc]
      exact iff_of_true rfl (hiff.mp (List.isEmpty_iff.mp hc))
    · rw [if_neg hc]
      exact iff_of_false (by simp)
        (fun hall => hc (List.isEmpty_iff.mpr (hiff.mpr hall)))
  · intro errs herrs hne2
    subst herrs
    rw [hfe]
    have hc : ((group.map (·.flux_err)).filterMap id).isEmpty = false :=
      Bool.eq_false_iff.mpr (fun h => hne2 (List.isEmpty_iff.mp h))
    rw [hc]
    rfl

/-- Witness for C9: the combination theorem applied to a concrete
one-row bucket with `sqrt := id`. -/
theorem bin_combine_rule_identical_witness :
    pandas_bin_combine 0 2 [exampleRowA] id = postgres_bin_combine 0 2 [exampleRowA] id :=
  (bin_combine_rule_identical id 0 2 [exampleRowA] (List.cons_ne_nil _ _)).1

/-! ## Helper lemmas for the binning equivalence -/

/-- A `min`-fold is bounded by its seed. -/
lemma foldl_min_le_init : ∀ (l : List Int) (a : Int), l.foldl min a ≤ a := by
  intro l
  induction l with
  | nil => intro a; exact le_refl a
  | cons b t ih =>
    intro a
    exact le_trans (ih (min a b)) (min_le_left a b)

/-- A `min`-fold is bounded by every list element. -/
lemma foldl_min_le_mem : ∀ (l : List Int) (a x : Int), x ∈ l → l.foldl min a ≤ x := by
  intro l
  induction l with
  | nil => intro a x hx; cases hx
  | cons b t ih =>
    intro a x hx
    rcases List.mem_cons.mp hx with h | h
    · subst h
      exact le_trans (foldl_min_le_init t (min a x)) (min_le_right a x)
    · exact ih (min a b) x h

/-- A `max`-fold dominates its seed. -/
lemma init_le_foldl_max : ∀ (l : List Int) (a : Int), a ≤ l.foldl max a := by
  intro l
  induction l with
  | nil => intro a; exact le_refl a
  | cons b t ih =>
    intro a
    exact le_trans (le_max_left a b) (ih (max a b))

/-- A `max`-fold dominates every list element. -/
lemma mem_le_foldl_max : ∀ (l : List Int) (a x : Int), x ∈ l → x ≤ l.foldl max a := by
  intro l
  induction l with
  | nil => intro a x hx; cases hx
  | cons b t ih =>
    intro a x hx
    rcases List.mem_cons.mp hx with h | h
    · subst h
      exact le_trans (le_max_right a x) (init_le_foldl_max t (max a x))
    · exact ih (max a b) x h

/-- `imin` bounds every element from below. -/
lemma imin_le {l : List Int} {x : Int} (hx : x ∈ l) : imin l ≤ x := by
  cases l with
  | nil => cases hx
  | cons y ys =>
    rcases List.mem_cons.mp hx with h | h
    · subst h
      exact foldl_min_le_init ys x
    · exact foldl_min_le_mem ys y x h

/-- `imax` bounds every element from above. -/
lemma le_imax {l : List Int} {x : Int} (hx : x ∈ l) : x ≤ imax l := by
  cases l with
  | nil => cases hx
  | cons y ys =>
    rcases List.mem_cons.mp hx with h | h
    · subst h
      exact init_le_foldl_max ys x
    · exact mem_le_foldl_max ys y x h

/-- Membership in `intRange` is the pair of inclusive bounds. -/
lemma mem_intRange {lo hi i : Int} : i ∈ intRange lo hi ↔ lo ≤ i ∧ i ≤ hi := by
  unfold intRange
  simp only [List.mem_map, List.mem_range]
  constructor
  · rintro ⟨n, hn, rfl⟩
    omega
  · rintro ⟨h1, h2⟩
    exact ⟨(i - lo).toNat, by omega, by omega⟩

/-- `intRange` is sorted. -/
lemma intRange_sorted (lo hi : Int) : List.Sorted (· ≤ ·) (intRange lo hi) := by
  unfold intRange
  rw [List.Sorted, List.pairwise_map]
  exact (List.pairwise_lt_range _).imp (fun h => by omega)

/-- `intRange` has no duplicates. -/
lemma intRange_nodup (lo hi : Int) : (intRange lo hi).Nodup := by
  unfold intRange
  exact List.Nodup.map (fun a b h => by omega) (List.nodup_range _)

/-- A `filterMap` that skips empty groups is a `filter` then `map`. -/
lemma filterMap_skip_empty {β : Type} (l : List Int) (g : Int → List Measurement)
    (f : Int → β) :
    l.filterMap (fun i => if (g i).isEmpty then none else some (f i)) =
      (l.filter (fun i => !(g i).isEmpty)).map f := by
  induction l with
  | nil => rfl
  | cons a t ih =>
    simp only [List.isEmpty_iff] at ih ⊢
    by_cases h : g a = [] <;>
      simp [List.filterMap_cons, List.filter_cons, h, ih]

/-- The sorted deduplication of an integer list is the filtered
inclusive range between its minimum and maximum. -/
lemma sorted_dedup_eq_range_filter (idxs : List Int) :
    List.insertionSort (· ≤ ·) idxs.dedup =
      (intRange (imin idxs) (imax idxs)).filter (fun i => decide (i ∈ idxs)) := by
  refine List.eq_of_perm_of_sorted ?_ (List.sorted_insertionSort _ _)
    ((intRange_sorted _ _).filter _)
  apply (List.perm_ext_iff_of_nodup ?_ ?_).mpr
  · intro a
    rw [List.mem_insertionSort, List.mem_dedup, List.mem_filter]
    constructor
    · intro ha
      exact ⟨mem_intRange.mpr ⟨imin_le ha, le_imax ha⟩, decide_eq_true ha⟩
    · intro ⟨_, ha⟩
      exact of_decide_eq_true ha
  · exact (List.perm_insertionSort _ _).nodup_iff.mpr idxs.nodup_dedup
  · exact (intRange_nodup _ _).filter _

/-- The pandas grouped loop and the postgres `GROUP BY` subquery emit
identical binned point lists: enumerating all buckets between the first
and last occupied one while skipping empties equals emitting the sorted
distinct occupied buckets. -/
lemma pandas_binned_points_eq_postgres (subset : List Measurement)
    (width start_time : ℚ) (sqrt : ℚ → ℚ) :
    pandas_binned_points subset width start_time sqrt =
      postgres_binned_points subset width start_time sqrt := by
  cases subset with
  | nil => rfl
  | cons r rs =>
    have hl : pandas_binned_points (r :: rs) width start_time sqrt =
        (intRange (imin ((r :: rs).map (fun m => bucket_index start_time width m.time)))
            (imax ((r :: rs).map (fun m => bucket_index start_time width m.time)))).filterMap
          (fun i =>
            if ((r :: rs).filter
                (fun m => bucket_index start_time width m.time == i)).isEmpty then none
            else some (pandas_bin_combine (bucket_start start_time width i) width
              ((r :: rs).filter (fun m => bucket_index start_time width m.time == i))
              sqrt)) := rfl
    have hr : postgres_binned_points (r :: rs) width start_time sqrt =
        (List.insertionSort (· ≤ ·)
            (((r :: rs).map (fun m => bucket_index start_time width m.time)).dedup)).map
          (fun i => postgres_bin_combine (bucket_start start_time width i) width
            ((r :: rs).filter (fun m => bucket_index start_time width m.time == i))
            sqrt) := rfl
    have hcomb : pandas_bin_combine = postgres_bin_combine := rfl
    rw [hl, hr, filterMap_skip_empty, sorted_dedup_eq_range_filter, hcomb]
    congr 1
    apply List.filter_congr
    intro i _
    by_cases hm : i ∈ (r :: rs).map (fun m => bucket_index start_time width m.time)
    · rw [decide_eq_true hm]
      obtain ⟨m, hmem2, hmi⟩ := List.mem_map.mp hm
      have hin : m ∈ (r :: rs).filter
          (fun m => bucket_index start_time width m.time == i) :=
        List.mem_filter.mpr ⟨hmem2, by rw [hmi]; exact beq_self_eq_true i⟩
      cases hfe : ((r :: rs).filter
          (fun m => bucket_index start_time width m.time == i)).isEmpty
      · rfl
      · rw [List.isEmpty_iff.mp hfe] at hin
        cases hin
    · rw [decide_eq_false hm]
      have hnil : (r :: rs).filter
          (fun m => bucket_index start_time width m.time == i) = [] := by
        rw [List.filter_eq_nil_iff]
        intro m hm2 hbeq
        exact hm (List.mem_map.mpr ⟨m, hm2, by simpa using hbeq⟩)
      rw [hnil]
      rfl

/-- With a positive width, a row falls in bucket `i` exactly when its
time lies in the half-open window `[bucket_start, bucket_start + width)`. -/
lemma bucket_index_eq_iff {width : ℚ} (hw : 0 < width) (s t : ℚ) (i : Int) :
    bucket_index s width t = i ↔
      bucket_start s width i ≤ t ∧ t < bucket_start s width i + width := by
  unfold bucket_index bucket_start
  rw [Int.floor_eq_iff, le_div_iff₀ hw, div_lt_iff₀ hw, add_mul, one_mul]
  constructor
  · rintro ⟨h1, h2⟩
    exact ⟨by linarith, by linarith⟩
  · rintro ⟨h1, h2⟩
    exact ⟨by linarith, by linarith⟩

/-- With a positive width, the pandas file backend's binned points are
exactly the specification's half-open bucket grouping. -/
lemma pandas_binned_points_eq_spec (subset : List Measurement) (width start_time : ℚ)
    (sqrt : ℚ → ℚ) (hw : 0 < width) :
    pandas_binned_points subset width start_time sqrt =
      spec_binned_lightcurve subset width start_time sqrt := by
  rw [pandas_binned_points_eq_postgres]
  unfold postgres_binned_points spec_binned_lightcurve
  apply List.map_congr_left
  intro i _
  have hgroup : subset.filter (fun m => bucket_index start_time width m.time == i) =
      subset.filter (fun m =>
        decide (bucket_start start_time width i ≤ m.time) &&
          decide (m.time < bucket_start start_time width i + width)) := by
    apply List.filter_congr
    intro m _
    have hiff := bucket_index_eq_iff hw start_time m.time i
    by_cases h : bucket_index start_time width m.time = i
    · have hc := hiff.mp h
      simp [h, hc.1, hc.2]
    · have hc : ¬(bucket_start start_time width i ≤ m.time ∧
          m.time < bucket_start start_time width i + width) :=
        fun hc => h (hiff.mpr hc)
      by_cases h1 : bucket_start start_time width i ≤ m.time
      · have h2 : ¬(m.time < bucket_start start_time width i + width) :=
          fun h2 => hc ⟨h1, h2⟩
        simp [h, h1, h2]
      · simp [h, h1]
  rw [hgroup]
  rfl

/-- Measurements used by the cross-backend counterexamples. -/
def exampleBinRow1 : Measurement :=
  { time := 1, module := "M", frequency := 90, ra := 0, dec := 0, flux := 1,
    flux_err := none }

/-- Second measurement of the same bucket as `exampleBinRow1`. -/
def exampleBinRow2 : Measurement :=
  { time := 1, module := "M", frequency := 90, ra := 0, dec := 0, flux := 3,
    flux_err := none }

/-- Measurement used by the half-open-grouping counterexample. -/
def exampleBinRow3 : Measurement :=
  { time := 4, module := "T", frequency := 145, ra := 1, dec := 1, flux := 2,
    flux_err := none }

/-- Second measurement of the same bucket as `exampleBinRow3`. -/
def exampleBinRow4 : Measurement :=
  { time := 4, module := "T", frequency := 145, ra := 1, dec := 1, flux := 6,
    flux_err := none }

/-- C2 counterexample: the claim says the pandas, parquet and postgres
backends return the same number of binned points.  Two measurements
sharing one bucket give one point from the pandas and postgres bucket
grouping but two points from the parquet backend's centred rolling
window (one per raw row), so the backends disagree. -/
theorem parquet_binned_point_count_differs :
    (parquet_get_binned_instrument_lightcurve (some [exampleBinRow1, exampleBinRow2])
        "M" 90 2 0 10 id 5).length = 2 ∧
      (pandas_get_binned_instrument_lightcurve (some [exampleBinRow1, exampleBinRow2])
        "M" 90 2 0 10 id 5).length = 1 ∧
      (postgres_get_binned_instrument_lightcurve [exampleBinRow1, exampleBinRow2]
        "M" 90 2 0 10 id 5).length = 1 := by
  have hb : bucket_index 0 2 1 = 0 := by
    unfold bucket_index
    norm_num
  have himin : imin [0, 0] = 0 := by decide
  have himax : imax [0, 0] = 0 := by decide
  have hrange : intRange 0 0 = [0] := by decide
  have hkeys : List.insertionSort (· ≤ ·) (([0, 0] : List Int).dedup) = [0] := by decide
  refine ⟨by decide, ?_, ?_⟩
  · norm_num [pandas_get_binned_instrument_lightcurve, pandas_binned_points, binned_subset,
      exampleBinRow1, exampleBinRow2, hb, himin, himax, hrange, pandas_bin_combine,
      List.filter_cons, List.filterMap_cons]
    decide
  · norm_num [postgres_get_binned_instrument_lightcurve, postgres_binned_points, binned_subset,
      exampleBinRow1, exampleBinRow2, hb, hkeys, postgres_bin_combine,
      List.filter_cons, List.filterMap_cons]

/-- C2 (amended): on every input the pandas and postgres backends agree
exactly — same point count, same bucket-centre timestamps, same values
(identical rational arithmetic, for every square-root function); the
parquet backend is excluded because its rolling window emits one point
per raw measurement. -/
theorem binned_lightcurve_pandas_eq_postgres :
    ∀ (table : List Measurement) (module : String) (frequency : Int)
      (width start_time end_time : ℚ) (sqrt : ℚ → ℚ) (limit : Nat),
      pandas_get_binned_instrument_lightcurve (some table) module frequency width
          start_time end_time sqrt limit =
        postgres_get_binned_instrument_lightcurve table module frequency width
          start_time end_time sqrt limit := by
  intro table module frequency width start_time end_time sqrt limit
  show (pandas_binned_points (binned_subset table module frequency start_time end_time)
      width start_time sqrt).take limit = _
  rw [pandas_binned_points_eq_postgres]
  rfl

/-- C5 counterexample: the claim says every file-based backend produces
binned lightcurves by half-open bucket grouping.  The parquet backend's
rolling window emits two points labelled with the raw timestamps, while
the half-open grouping of the same rows yields one bucket-centre point,
so the parquet output is not the grouping output. -/
theorem parquet_rolling_is_not_bucket_grouping :
    (parquet_get_binned_instrument_lightcurve (some [exampleBinRow3, exampleBinRow4])
        "T" 145 2 0 10 id 5).length = 2 ∧
      ((spec_binned_lightcurve
        (binned_subset [exampleBinRow3, exampleBinRow4] "T" 145 0 10) 2 0 id).take 5).length
          = 1 ∧
      parquet_get_binned_instrument_lightcurve (some [exampleBinRow3, exampleBinRow4])
          "T" 145 2 0 10 id 5 ≠
        (spec_binned_lightcurve
          (binned_subset [exampleBinRow3, exampleBinRow4] "T" 145 0 10) 2 0 id).take 5 := by
  have hb : bucket_index 0 2 4 = 2 := by
    unfold bucket_index
    norm_num
  have hkeys : List.insertionSort (· ≤ ·) (([2, 2] : List Int).dedup) = [2] := by decide
  have hspec : spec_binned_lightcurve
      (binned_subset [exampleBinRow3, exampleBinRow4] "T" 145 0 10) 2 0 id =
      [{ time := 5, ra := 1, dec := 1, flux := 4, flux_err := none }] := by
    norm_num [spec_binned_lightcurve, binned_subset, exampleBinRow3, exampleBinRow4, hb,
      hkeys, bucket_start, qmean, List.filter_cons, List.filterMap_cons]
  refine ⟨by decide, ?_, ?_⟩
  · rw [hspec]
    decide
  · rw [hspec]
    decide

/-- C5 (amended): the pandas file backend produces every binned
lightcurve by grouping its selected rows into non-overlapping half-open
`[bucket_start, bucket_start + width)` windows anchored at
`start_time`, in ascending order with empty groups omitted — its output
equals the specification's grouping on every input with positive width.
The parquet file backend does not (see the counterexample). -/
theorem pandas_binning_is_half_open_grouping :
    ∀ (table : List Measurement) (module : String) (frequency : Int)
      (width start_time end_time : ℚ) (sqrt : ℚ → ℚ) (limit : Nat), 0 < width →
      pandas_get_binned_instrument_lightcurve (some table) module frequency width
          start_time end_time sqrt limit =
        (spec_binned_lightcurve (binned_subset table module frequency start_time end_time)
          width start_time sqrt).take limit := by
  intro table module frequency width start_time end_time sqrt limit hw
  show (pandas_binned_points (binned_subset table module frequency start_time end_time)
      width start_time sqrt).take limit = _
  rw [pandas_binned_points_eq_spec _ _ _ _ hw]

/-- Witness for C5: the amended theorem applied at width 2 on a concrete
one-row table. -/
theorem pandas_binning_is_half_open_grouping_witness :
    pandas_get_binned_instrument_lightcurve (some [exampleRowA]) "A" 90 2 (-1) 10 id 5 =
      (spec_binned_lightcurve (binned_subset [exampleRowA] "A" 90 (-1) 10) 2 (-1) id).take 5 :=
  pandas_binning_is_half_open_grouping [exampleRowA] "A" 90 2 (-1) 10 id 5 (by norm_num)
